import Mathlib

/-!
Verification of the conversion-worker repository's matching and conversion
core against its natural-language specification.

The Go source is shallowly embedded: pure helpers become Lean functions,
the HTTP client consumed by the matcher becomes a record of response
functions, Go's `(value, error)` returns become `Except`, nilable pointers
become `Option`, wall-clock reads (`time.Now()`) become explicit `Nat`
arguments, and the nondeterministic completion order of the matcher's
goroutines becomes an explicit schedule parameter (a permutation of the
input tracks, each tagged with whether the unit observed cancellation at
entry).
-/

namespace ConversionWorker

/-! ## Go string primitives

`strings.ToLower` and `strings.Contains` modelled on rune (character)
lists.  `listStartsWith s sub` is Go's `strings.HasPrefix`; an empty
needle is contained in every string, as in Go. -/

def listStartsWith : List Char → List Char → Bool
  | _, [] => true
  | [], _ :: _ => false
  | c :: cs, d :: ds => c == d && listStartsWith cs ds

def listContainsSub : List Char → List Char → Bool
  | [], sub => sub.isEmpty
  | c :: cs, sub => listStartsWith (c :: cs) sub || listContainsSub cs sub

/-- goContains s sub models Go `strings.Contains(s, sub)`. -/
def goContains (s sub : String) : Bool :=
  listContainsSub s.data sub.data

/-- goLower models Go `strings.ToLower` (rune-wise case folding). -/
def goLower (s : String) : String :=
  String.mk (s.data.map Char.toLower)

/-! ## Domain model (internal/domain) -/

/-- Platform is a string type with two recognised values (domain/platform.go). -/
abbrev Platform := String

def PlatformSpotify : Platform := "SPOTIFY"
def PlatformYouTube : Platform := "YOUTUBE"

def Platform.IsValid (p : Platform) : Bool :=
  p == PlatformSpotify || p == PlatformYouTube

/-- Track mirrors domain.Track (track.go).  `id` stands for the generated uuid. -/
structure Track where
  id : String
  name : String
  artist : String
  album : String
  durationMs : Int
  isrc : String
  platform : Platform
  platformID : String
deriving DecidableEq, Repr

inductive MatchConfidence
  | high
  | medium
  | low
  | none
deriving DecidableEq, Repr

/-- TrackMatch mirrors domain.TrackMatch; the Go `*Track` pointers are
`Option Track` (nil = `Option.none`). -/
structure TrackMatch where
  sourceTrack : Option Track
  targetTrack : Option Track
  confidence : MatchConfidence
  matchMethod : String
  error : String
deriving DecidableEq, Repr

/-- NewTrackMatch mirrors domain.NewTrackMatch (call sites always pass
non-nil pointers, hence plain `Track` arguments). -/
def NewTrackMatch (source target : Track) (confidence : MatchConfidence)
    (method : String) : TrackMatch :=
  { sourceTrack := some source
    targetTrack := some target
    confidence := confidence
    matchMethod := method
    error := "" }

/-- NewFailedMatch mirrors domain.NewFailedMatch. -/
def NewFailedMatch (source : Track) (err : String) : TrackMatch :=
  { sourceTrack := some source
    targetTrack := Option.none
    confidence := MatchConfidence.none
    matchMethod := ""
    error := err }

/-! ## Matcher (internal/application matcher, ISRC + music-search variant)

The `http.YouTubeClient` the matcher consumes is embedded as a record of
response functions; a Go `(result, err)` pair is an `Except`.  The context
and session arguments carry no information the embedded logic reads, so
they are dropped. -/

structure YouTubeClient where
  searchByISRC : String → Except String (Option Track)
  searchTrack : String → String → Except String (List Track)

def excludeTerms : List String :=
  ["cover", "live", "karaoke", "remix", "tutorial", "reaction"]

def preferTerms : List String := ["official", "audio", "video"]

def isExcluded (title : String) : Bool :=
  excludeTerms.any fun term => goContains (goLower title) term

def hasArtistMatch (source target : Track) : Bool :=
  goContains (goLower target.artist) (goLower source.artist) ||
    goContains (goLower target.name) (goLower source.artist)

def hasTitleMatch (source target : Track) : Bool :=
  goContains (goLower target.name) (goLower source.name)

def hasPreferredTerm (title : String) : Bool :=
  preferTerms.any fun term => goContains (goLower title) term

def tryISRCSearch (client : YouTubeClient) (sourceTrack : Track) :
    Option TrackMatch :=
  if sourceTrack.isrc = "" then Option.none
  else
    match client.searchByISRC sourceTrack.isrc with
    | Except.error _ => Option.none
    | Except.ok Option.none => Option.none
    | Except.ok (some targetTrack) =>
        some (NewTrackMatch sourceTrack targetTrack MatchConfidence.high "isrc")

/-- scoreCandidates is the candidate loop inside tryMusicSearch: skip
excluded candidates, return a scored match on the first kept one. -/
def scoreCandidates (sourceTrack : Track) : List Track → Option TrackMatch
  | [] => Option.none
  | targetTrack :: rest =>
    if isExcluded targetTrack.name then scoreCandidates sourceTrack rest
    else if hasArtistMatch sourceTrack targetTrack &&
        hasTitleMatch sourceTrack targetTrack then
      some (NewTrackMatch sourceTrack targetTrack MatchConfidence.high "exact_match")
    else if hasArtistMatch sourceTrack targetTrack ||
        hasTitleMatch sourceTrack targetTrack then
      some (NewTrackMatch sourceTrack targetTrack MatchConfidence.medium "partial_match")
    else
      some (NewTrackMatch sourceTrack targetTrack MatchConfidence.low "music_search")

def tryMusicSearch (client : YouTubeClient) (sourceTrack : Track) :
    Option TrackMatch :=
  match client.searchTrack sourceTrack.name sourceTrack.artist with
  | Except.error _ => Option.none
  | Except.ok tracks =>
    if tracks.length = 0 then Option.none
    else scoreCandidates sourceTrack tracks

def matchTrack (client : YouTubeClient) (sourceTrack : Track) : TrackMatch :=
  match tryISRCSearch client sourceTrack with
  | some m => m
  | Option.none =>
    match tryMusicSearch client sourceTrack with
    | some m => m
    | Option.none => NewFailedMatch sourceTrack "no match found"

/-! ## MatchTracks

One goroutine per input track sends its Match on a channel; the aggregator
receives the Matches in completion order.  The nondeterminism is made
explicit: a schedule is a list of (track, cancelledAtEntry) pairs whose
tracks are a permutation of the input list, in the order the aggregator
receives their results. -/

/-- runUnit is one goroutine's contribution: the cancellation check at
entry, then matchTrack. -/
def runUnit (client : YouTubeClient) (u : Track × Bool) : TrackMatch :=
  if u.2 then NewFailedMatch u.1 "context cancelled" else matchTrack client u.1

def MatchTracks (client : YouTubeClient) (tracks : List Track)
    (sched : List (Track × Bool)) : List TrackMatch :=
  if tracks.isEmpty then [] else sched.map (runUnit client)

/-- schedules sched tracks says the schedule covers exactly the input
tracks (one goroutine per track, arbitrary completion order). -/
def schedules (sched : List (Track × Bool)) (tracks : List Track) : Prop :=
  List.Perm (sched.map Prod.fst) tracks

/-! ## Progress aggregation

The aggregator's counter triple `(processed, matched, failed)` after each
received Match, i.e. the argument of each `onProgress` callback in order. -/

def progressStep (acc : Nat × Nat × Nat) (m : TrackMatch) : Nat × Nat × Nat :=
  (acc.1 + 1,
   (if m.confidence ≠ MatchConfidence.none then acc.2.1 + 1 else acc.2.1),
   (if m.confidence = MatchConfidence.none then acc.2.2 + 1 else acc.2.2))

def progressSeqFrom (acc : Nat × Nat × Nat) :
    List TrackMatch → List (Nat × Nat × Nat)
  | [] => []
  | m :: rest =>
    progressStep acc m :: progressSeqFrom (progressStep acc m) rest

/-- progressSeq ms is the sequence of `(processed, matched, failed)`
triples passed to `onProgress`, one per received Match, in order. -/
def progressSeq (ms : List TrackMatch) : List (Nat × Nat × Nat) :=
  progressSeqFrom (0, 0, 0) ms

/-- countNonNone counts the Matches with confidence ≠ NONE. -/
def countNonNone (ms : List TrackMatch) : Nat :=
  ms.countP fun m => decide (m.confidence ≠ MatchConfidence.none)

/-- countNone counts the Matches with confidence NONE. -/
def countNone (ms : List TrackMatch) : Nat :=
  ms.countP fun m => decide (m.confidence = MatchConfidence.none)

/-! ## Sample values used to instantiate hypotheses on concrete inputs -/

def wTrack : Track :=
  { id := "i1", name := "Bohemian Rhapsody", artist := "Queen", album := ""
    durationMs := 0, isrc := "", platform := PlatformSpotify, platformID := "sp1" }

def wTrackISRC : Track :=
  { wTrack with isrc := "GBUM71029604" }

def wTarget : Track :=
  { id := "i2", name := "Queen - Bohemian Rhapsody (Official Video)", artist := "Queen"
    album := "", durationMs := 0, isrc := "", platform := PlatformYouTube, platformID := "yt1" }

def wCover : Track :=
  { id := "i3", name := "Bohemian Rhapsody Cover", artist := "CoverChannel"
    album := "", durationMs := 0, isrc := "", platform := PlatformYouTube, platformID := "yt2" }

def clientOk : YouTubeClient :=
  { searchByISRC := fun _ => Except.ok Option.none
    searchTrack := fun _ _ => Except.ok [wCover, wTarget] }

def clientErrW : YouTubeClient :=
  { searchByISRC := fun _ => Except.ok Option.none
    searchTrack := fun _ _ => Except.error "network error" }

def clientISRCHit : YouTubeClient :=
  { searchByISRC := fun _ => Except.ok (some wTarget)
    searchTrack := fun _ _ => Except.error "text search must not be needed" }

def defaultMatch : TrackMatch :=
  { sourceTrack := Option.none, targetTrack := Option.none
    confidence := MatchConfidence.none, matchMethod := "", error := "" }

/-! ## Matcher lemmas -/

lemma tryISRCSearch_eq_some {client : YouTubeClient} {t : Track} {m : TrackMatch}
    (h : tryISRCSearch client t = some m) :
    m.sourceTrack = some t ∧ (∃ tt, m.targetTrack = some tt) ∧
      m.confidence = MatchConfidence.high ∧ m.matchMethod = "isrc" := by
  unfold tryISRCSearch at h
  split at h
  · exact absurd h (by simp)
  · split at h
    · exact absurd h (by simp)
    · exact absurd h (by simp)
    · rename_i targetTrack heq
      cases h
      exact ⟨rfl, ⟨targetTrack, rfl⟩, rfl, rfl⟩

lemma scoreCandidates_eq_some {s : Track} {cands : List Track} {m : TrackMatch}
    (h : scoreCandidates s cands = some m) :
    m.sourceTrack = some s ∧
      ∃ tt, m.targetTrack = some tt ∧ isExcluded tt.name = false ∧
        m.confidence ≠ MatchConfidence.none := by
  induction cands with
  | nil => exact absurd h (by simp [scoreCandidates])
  | cons c rest ih =>
    unfold scoreCandidates at h
    by_cases hex : isExcluded c.name
    · rw [if_pos hex] at h
      exact ih h
    · rw [if_neg hex] at h
      rw [Bool.not_eq_true] at hex
      split at h
      · cases h
        exact ⟨rfl, c, rfl, hex, by simp [NewTrackMatch]⟩
      · split at h
        · cases h
          exact ⟨rfl, c, rfl, hex, by simp [NewTrackMatch]⟩
        · cases h
          exact ⟨rfl, c, rfl, hex, by simp [NewTrackMatch]⟩

lemma tryMusicSearch_eq_some {client : YouTubeClient} {s : Track} {m : TrackMatch}
    (h : tryMusicSearch client s = some m) :
    m.sourceTrack = some s ∧
      ∃ tt, m.targetTrack = some tt ∧ isExcluded tt.name = false ∧
        m.confidence ≠ MatchConfidence.none := by
  unfold tryMusicSearch at h
  split at h
  · exact absurd h (by simp)
  · split at h
    · exact absurd h (by simp)
    · exact scoreCandidates_eq_some h

lemma matchTrack_sourceTrack (client : YouTubeClient) (t : Track) :
    (matchTrack client t).sourceTrack = some t := by
  unfold matchTrack
  split
  · rename_i m h
    exact (tryISRCSearch_eq_some h).1
  · split
    · rename_i m h
      exact (tryMusicSearch_eq_some h).1
    · rfl

lemma matchTrack_target_iff (client : YouTubeClient) (t : Track) :
    (matchTrack client t).targetTrack.isSome = true ↔
      (matchTrack client t).confidence ≠ MatchConfidence.none := by
  unfold matchTrack
  split
  · rename_i m h
    obtain ⟨-, ⟨tt, htt⟩, hc, -⟩ := tryISRCSearch_eq_some h
    simp [htt, hc]
  · split
    · rename_i m h
      obtain ⟨-, tt, htt, -, hc⟩ := tryMusicSearch_eq_some h
      simp [htt, hc]
    · simp [NewFailedMatch]

lemma runUnit_sourceTrack (client : YouTubeClient) (u : Track × Bool) :
    (runUnit client u).sourceTrack = some u.1 := by
  unfold runUnit
  split
  · rfl
  · exact matchTrack_sourceTrack client u.1

lemma runUnit_target_iff (client : YouTubeClient) (u : Track × Bool) :
    (runUnit client u).targetTrack.isSome = true ↔
      (runUnit client u).confidence ≠ MatchConfidence.none := by
  unfold runUnit
  split
  · simp [NewFailedMatch]
  · exact matchTrack_target_iff client u.1

/-- C1: MatchTracks returns one Match per input track, every Match has a
non-nil source track, a Match has a target track iff its confidence is not
NONE, and the empty input yields the empty result. -/
theorem matchTracks_shape (client : YouTubeClient) (tracks : List Track)
    (sched : List (Track × Bool)) (hs : schedules sched tracks) :
    (MatchTracks client tracks sched).length = tracks.length ∧
      (∀ m ∈ MatchTracks client tracks sched, m.sourceTrack.isSome = true) ∧
      (∀ m ∈ MatchTracks client tracks sched,
        (m.targetTrack.isSome = true ↔ m.confidence ≠ MatchConfidence.none)) ∧
      (tracks = [] → MatchTracks client tracks sched = []) := by
  have hlen : sched.length = tracks.length := by
    have := hs.length_eq
    simpa using this
  refine ⟨?_, ?_, ?_, ?_⟩
  · unfold MatchTracks
    split
    · rename_i hemp
      simp_all [List.isEmpty_iff]
    · simp [hlen]
  · intro m hm
    unfold MatchTracks at hm
    split at hm
    · simp at hm
    · obtain ⟨u, -, rfl⟩ := List.mem_map.mp hm
      rw [runUnit_sourceTrack]
      rfl
  · intro m hm
    unfold MatchTracks at hm
    split at hm
    · simp at hm
    · obtain ⟨u, -, rfl⟩ := List.mem_map.mp hm
      exact runUnit_target_iff client u
  · intro h
    subst h
    rfl

/-- C1 witness: the shape property evaluated on a one-track input. -/
theorem matchTracks_shape_witness :
    (MatchTracks clientOk [wTrack] [(wTrack, false)]).length = [wTrack].length :=
  (matchTracks_shape clientOk [wTrack] [(wTrack, false)] (List.Perm.refl _)).1

/-- C2: an excluded candidate (case-folded name contains an exclusion term)
never yields a non-NONE Match from the text search: the returned Match's
target is never an excluded candidate, and the Match it does return has a
non-excluded target. -/
theorem excluded_candidate_never_matched (client : YouTubeClient) (s : Track)
    (m : TrackMatch) (h : tryMusicSearch client s = some m) :
    (∃ tt, m.targetTrack = some tt ∧ isExcluded tt.name = false) ∧
      m.confidence ≠ MatchConfidence.none ∧
      (∀ c : Track, isExcluded c.name = true → m.targetTrack ≠ some c) := by
  obtain ⟨-, tt, htt, hex, hc⟩ := tryMusicSearch_eq_some h
  refine ⟨⟨tt, htt, hex⟩, hc, ?_⟩
  intro c hcex heq
  rw [htt] at heq
  cases heq
  rw [hcex] at hex
  exact absurd hex (by simp)

/-- C2 witness: with candidates [cover, official video], the cover is
skipped and the match target is the non-excluded candidate. -/
theorem excluded_candidate_never_matched_witness :
    (∃ tt, (NewTrackMatch wTrack wTarget MatchConfidence.high "exact_match").targetTrack
        = some tt ∧ isExcluded tt.name = false) ∧
      (NewTrackMatch wTrack wTarget MatchConfidence.high "exact_match").confidence
        ≠ MatchConfidence.none ∧
      (∀ c : Track, isExcluded c.name = true →
        (NewTrackMatch wTrack wTarget MatchConfidence.high "exact_match").targetTrack
          ≠ some c) :=
  excluded_candidate_never_matched clientOk wTrack _ (by decide)

lemma scoreCandidates_cons (s c : Track) (rest : List Track) :
    scoreCandidates s (c :: rest) =
      if isExcluded c.name then scoreCandidates s rest
      else if hasArtistMatch s c && hasTitleMatch s c then
        some (NewTrackMatch s c MatchConfidence.high "exact_match")
      else if hasArtistMatch s c || hasTitleMatch s c then
        some (NewTrackMatch s c MatchConfidence.medium "partial_match")
      else some (NewTrackMatch s c MatchConfidence.low "music_search") := rfl

lemma tryMusicSearch_ok {client : YouTubeClient} {s : Track} {cands : List Track}
    (h : client.searchTrack s.name s.artist = Except.ok cands) :
    tryMusicSearch client s =
      if cands.length = 0 then Option.none else scoreCandidates s cands := by
  unfold tryMusicSearch
  rw [h]

lemma tryMusicSearch_err {client : YouTubeClient} {s : Track} {e : String}
    (h : client.searchTrack s.name s.artist = Except.error e) :
    tryMusicSearch client s = Option.none := by
  unfold tryMusicSearch
  rw [h]

lemma scoreCandidates_append_excluded {s : Track} {pre : List Track}
    (hpre : ∀ p ∈ pre, isExcluded p.name = true) (rest : List Track) :
    scoreCandidates s (pre ++ rest) = scoreCandidates s rest := by
  induction pre with
  | nil => rfl
  | cons p ps ih =>
    have hp : isExcluded p.name = true := hpre p (by simp)
    rw [List.cons_append, scoreCandidates_cons, if_pos hp]
    exact ih fun q hq => hpre q (by simp [hq])

lemma scoreCandidates_all_excluded {s : Track} {cands : List Track}
    (h : ∀ c ∈ cands, isExcluded c.name = true) :
    scoreCandidates s cands = Option.none := by
  have h2 := scoreCandidates_append_excluded (s := s) h ([] : List Track)
  simpa using h2

/-- C3: on the first non-rejected text-search candidate, with A = artist
substring test and T = title substring test, A ∧ T yields (HIGH,
"exact_match"), exactly one of A, T yields (MEDIUM, "partial_match"), and
neither yields (LOW, "music_search"). -/
theorem first_candidate_scoring (client : YouTubeClient) (s c : Track)
    (pre post : List Track) (hpre : ∀ p ∈ pre, isExcluded p.name = true)
    (hc : isExcluded c.name = false)
    (hcl : client.searchTrack s.name s.artist = Except.ok (pre ++ c :: post)) :
    (hasArtistMatch s c = true → hasTitleMatch s c = true →
      tryMusicSearch client s =
        some (NewTrackMatch s c MatchConfidence.high "exact_match")) ∧
    (hasArtistMatch s c ≠ hasTitleMatch s c →
      tryMusicSearch client s =
        some (NewTrackMatch s c MatchConfidence.medium "partial_match")) ∧
    (hasArtistMatch s c = false → hasTitleMatch s c = false →
      tryMusicSearch client s =
        some (NewTrackMatch s c MatchConfidence.low "music_search")) := by
  have hrun : tryMusicSearch client s = scoreCandidates s (c :: post) := by
    rw [tryMusicSearch_ok hcl, if_neg (by simp)]
    exact scoreCandidates_append_excluded hpre (c :: post)
  have hhead : scoreCandidates s (c :: post) =
      (if hasArtistMatch s c && hasTitleMatch s c then
        some (NewTrackMatch s c MatchConfidence.high "exact_match")
      else if hasArtistMatch s c || hasTitleMatch s c then
        some (NewTrackMatch s c MatchConfidence.medium "partial_match")
      else some (NewTrackMatch s c MatchConfidence.low "music_search")) := by
    rw [scoreCandidates_cons, if_neg (by simp [hc])]
  refine ⟨?_, ?_, ?_⟩
  · intro ha ht
    rw [hrun, hhead, if_pos (by simp [ha, ht])]
  · intro hne
    rw [hrun, hhead]
    rcases Bool.eq_false_or_eq_true (hasArtistMatch s c) with ha | ha
    · rcases Bool.eq_false_or_eq_true (hasTitleMatch s c) with ht | ht
      · exact absurd (ha.trans ht.symm) hne
      · rw [if_neg (by simp [ha, ht]), if_pos (by simp [ha, ht])]
    · rcases Bool.eq_false_or_eq_true (hasTitleMatch s c) with ht | ht
      · rw [if_neg (by simp [ha, ht]), if_pos (by simp [ha, ht])]
      · exact absurd (ha.trans ht.symm) hne
  · intro ha ht
    rw [hrun, hhead, if_neg (by simp [ha]), if_neg (by simp [ha, ht])]

/-- C3 witness: scoring evaluated with the cover candidate rejected and the
official-video candidate first kept (A and T both hold). -/
theorem first_candidate_scoring_witness :
    tryMusicSearch clientOk wTrack =
      some (NewTrackMatch wTrack wTarget MatchConfidence.high "exact_match") :=
  (first_candidate_scoring clientOk wTrack wTarget [wCover] []
    (by decide) (by decide) rfl).1 (by decide) (by decide)

/-- C4: a non-empty ISRC is looked up first; a non-nil result yields the
(HIGH, "isrc") Match for any text-search behaviour whatsoever (so text
search is not consulted), while an ISRC error or nil result falls through
to the text-search step. -/
theorem isrc_ladder (client : YouTubeClient) (s t : Track) :
    (s.isrc ≠ "" → client.searchByISRC s.isrc = Except.ok (some t) →
      matchTrack client s = NewTrackMatch s t MatchConfidence.high "isrc") ∧
    (∀ e, client.searchByISRC s.isrc = Except.error e →
      matchTrack client s =
        (tryMusicSearch client s).getD (NewFailedMatch s "no match found")) ∧
    (client.searchByISRC s.isrc = Except.ok Option.none →
      matchTrack client s =
        (tryMusicSearch client s).getD (NewFailedMatch s "no match found")) := by
  have hfall : tryISRCSearch client s = Option.none →
      matchTrack client s =
        (tryMusicSearch client s).getD (NewFailedMatch s "no match found") := by
    intro hnone
    unfold matchTrack
    rw [hnone]
    cases tryMusicSearch client s <;> rfl
  refine ⟨?_, ?_, ?_⟩
  · intro hne hq
    unfold matchTrack tryISRCSearch
    rw [if_neg hne, hq]
  · intro e hq
    apply hfall
    unfold tryISRCSearch
    split
    · rfl
    · rw [hq]
  · intro hq
    apply hfall
    unfold tryISRCSearch
    split
    · rfl
    · rw [hq]

/-- C4 witness: the ISRC hit evaluated on a concrete track, with a text
search that would error if it were consulted. -/
theorem isrc_ladder_witness :
    matchTrack clientISRCHit wTrackISRC =
      NewTrackMatch wTrackISRC wTarget MatchConfidence.high "isrc" :=
  (isrc_ladder clientISRCHit wTrackISRC wTarget).1 (by decide) rfl

/-- C5 counterexample: when the text-search transport call fails, the
recorded failed Match carries the message "no match found", not the
transport error message ("network error" here), contrary to the claim. -/
theorem text_search_error_message_cex :
    matchTrack clientErrW wTrack = NewFailedMatch wTrack "no match found" ∧
      (matchTrack clientErrW wTrack).error ≠ "network error" := by
  constructor
  · rfl
  · decide

/-- C5 amended: whenever the ISRC step fell through, a text-search
transport error, an empty candidate list, and an all-excluded candidate
list each produce the failed Match with message "no match found" (the
transport error message is never propagated). -/
theorem text_search_failure_no_match_found (client : YouTubeClient) (s : Track)
    (hisrc : tryISRCSearch client s = Option.none) :
    (∀ e, client.searchTrack s.name s.artist = Except.error e →
      matchTrack client s = NewFailedMatch s "no match found") ∧
    (client.searchTrack s.name s.artist = Except.ok [] →
      matchTrack client s = NewFailedMatch s "no match found") ∧
    (∀ cands, client.searchTrack s.name s.artist = Except.ok cands →
      (∀ c ∈ cands, isExcluded c.name = true) →
      matchTrack client s = NewFailedMatch s "no match found") := by
  have hbase : tryMusicSearch client s = Option.none →
      matchTrack client s = NewFailedMatch s "no match found" := by
    intro hnone
    unfold matchTrack
    rw [hisrc, hnone]
  refine ⟨?_, ?_, ?_⟩
  · intro e hq
    exact hbase (tryMusicSearch_err hq)
  · intro hq
    apply hbase
    rw [tryMusicSearch_ok hq]
    rfl
  · intro cands hq hall
    apply hbase
    rw [tryMusicSearch_ok hq]
    split
    · rfl
    · exact scoreCandidates_all_excluded hall

/-- C5 witness: the amended statement evaluated on a transport failure. -/
theorem text_search_failure_no_match_found_witness :
    matchTrack clientErrW wTrack = NewFailedMatch wTrack "no match found" :=
  (text_search_failure_no_match_found clientErrW wTrack rfl).1 "network error" rfl

/-! ## Progress-callback lemmas -/

lemma progressSeqFrom_length (acc : Nat × Nat × Nat) (ms : List TrackMatch) :
    (progressSeqFrom acc ms).length = ms.length := by
  induction ms generalizing acc with
  | nil => rfl
  | cons m rest ih => simp [progressSeqFrom, ih]

lemma countNonNone_add_countNone (ms : List TrackMatch) :
    countNonNone ms + countNone ms = ms.length := by
  induction ms with
  | nil => rfl
  | cons m rest ih =>
    by_cases hm : m.confidence = MatchConfidence.none <;>
      simp [countNonNone, countNone, List.countP_cons, hm] at * <;> omega

lemma countNonNone_take_succ (ms : List TrackMatch) (i : Nat) (h : i < ms.length) :
    countNonNone (ms.take (i + 1)) = countNonNone (ms.take i) +
      (if (ms.getD i defaultMatch).confidence ≠ MatchConfidence.none then 1 else 0) := by
  induction ms generalizing i with
  | nil => simp at h
  | cons m rest ih =>
    cases i with
    | zero => simp [countNonNone, List.countP_cons]
    | succ i =>
      have h2 : i < rest.length := by simpa using h
      have ih2 := ih i h2
      simp only [List.take_succ_cons, List.getD_cons_succ, countNonNone,
        List.countP_cons] at *
      omega

lemma countNone_take_succ (ms : List TrackMatch) (i : Nat) (h : i < ms.length) :
    countNone (ms.take (i + 1)) = countNone (ms.take i) +
      (if (ms.getD i defaultMatch).confidence = MatchConfidence.none then 1 else 0) := by
  induction ms generalizing i with
  | nil => simp at h
  | cons m rest ih =>
    cases i with
    | zero => simp [countNone, List.countP_cons]
    | succ i =>
      have h2 : i < rest.length := by simpa using h
      have ih2 := ih i h2
      simp only [List.take_succ_cons, List.getD_cons_succ, countNone,
        List.countP_cons] at *
      omega

lemma take_take_sublist (ms : List TrackMatch) {i j : Nat} (hij : i ≤ j) :
    List.Sublist (ms.take i) (ms.take j) := by
  have heq : (ms.take j).take i = ms.take i := by
    rw [List.take_take, Nat.min_eq_left hij]
  rw [← heq]
  exact List.take_sublist i (ms.take j)

lemma countNonNone_take_mono (ms : List TrackMatch) {i j : Nat} (hij : i ≤ j) :
    countNonNone (ms.take i) ≤ countNonNone (ms.take j) :=
  List.Sublist.countP_le _ (take_take_sublist ms hij)

lemma countNone_take_mono (ms : List TrackMatch) {i j : Nat} (hij : i ≤ j) :
    countNone (ms.take i) ≤ countNone (ms.take j) :=
  List.Sublist.countP_le _ (take_take_sublist ms hij)

lemma progressSeqFrom_getD (ms : List TrackMatch) (acc : Nat × Nat × Nat)
    (i : Nat) (h : i < ms.length) :
    (progressSeqFrom acc ms).getD i (0, 0, 0) =
      (acc.1 + (i + 1),
       acc.2.1 + countNonNone (ms.take (i + 1)),
       acc.2.2 + countNone (ms.take (i + 1))) := by
  induction ms generalizing acc i with
  | nil => simp at h
  | cons m rest ih =>
    cases i with
    | zero =>
      by_cases hm : m.confidence = MatchConfidence.none <;>
        simp [progressSeqFrom, progressStep, countNonNone, countNone,
          List.countP_cons, hm]
    | succ i =>
      have h2 : i < rest.length := by simpa using h
      have hstep : progressSeqFrom acc (m :: rest) =
          progressStep acc m :: progressSeqFrom (progressStep acc m) rest := rfl
      rw [hstep, List.getD_cons_succ, ih (progressStep acc m) i h2,
        List.take_succ_cons]
      have hc1 : countNonNone (m :: rest.take (i + 1)) =
          (if m.confidence ≠ MatchConfidence.none then 1 else 0) +
            countNonNone (rest.take (i + 1)) := by
        by_cases hm : m.confidence = MatchConfidence.none <;>
          simp [countNonNone, List.countP_cons, hm, Nat.add_comm]
      have hc2 : countNone (m :: rest.take (i + 1)) =
          (if m.confidence = MatchConfidence.none then 1 else 0) +
            countNone (rest.take (i + 1)) := by
        by_cases hm : m.confidence = MatchConfidence.none <;>
          simp [countNone, List.countP_cons, hm, Nat.add_comm]
      rw [hc1, hc2]
      simp only [Prod.mk.injEq, progressStep]
      by_cases hm : m.confidence = MatchConfidence.none <;>
        simp [hm] <;> omega

lemma progressSeq_getD (ms : List TrackMatch) (i : Nat) (h : i < ms.length) :
    (progressSeq ms).getD i (0, 0, 0) =
      (i + 1, countNonNone (ms.take (i + 1)), countNone (ms.take (i + 1))) := by
  have h2 := progressSeqFrom_getD ms (0, 0, 0) i h
  simpa [progressSeq] using h2

/-- C9: across the callback sequence of one MatchTracks call, processed is
i + 1 at the i-th callback (so it increases by exactly 1 per callback),
matched + failed = processed at every callback, the arriving Match
increments matched iff its confidence is not NONE and failed otherwise,
and matched and failed are non-decreasing. -/
theorem progress_callback_monotonic (client : YouTubeClient)
    (tracks : List Track) (sched : List (Track × Bool)) (ms : List TrackMatch)
    (seq : List (Nat × Nat × Nat)) (hms : ms = MatchTracks client tracks sched)
    (hseq : seq = progressSeq ms) :
    seq.length = ms.length ∧
    (∀ i, i < seq.length → (seq.getD i (0, 0, 0)).1 = i + 1) ∧
    (∀ i, i < seq.length →
      (seq.getD i (0, 0, 0)).2.1 + (seq.getD i (0, 0, 0)).2.2 =
        (seq.getD i (0, 0, 0)).1) ∧
    (0 < seq.length →
      (seq.getD 0 (0, 0, 0)).2.1 =
        (if (ms.getD 0 defaultMatch).confidence ≠ MatchConfidence.none
          then 1 else 0) ∧
      (seq.getD 0 (0, 0, 0)).2.2 =
        (if (ms.getD 0 defaultMatch).confidence = MatchConfidence.none
          then 1 else 0)) ∧
    (∀ i, i + 1 < seq.length →
      (seq.getD (i + 1) (0, 0, 0)).2.1 = (seq.getD i (0, 0, 0)).2.1 +
        (if (ms.getD (i + 1) defaultMatch).confidence ≠ MatchConfidence.none
          then 1 else 0) ∧
      (seq.getD (i + 1) (0, 0, 0)).2.2 = (seq.getD i (0, 0, 0)).2.2 +
        (if (ms.getD (i + 1) defaultMatch).confidence = MatchConfidence.none
          then 1 else 0)) ∧
    (∀ i j, i ≤ j → j < seq.length →
      (seq.getD i (0, 0, 0)).2.1 ≤ (seq.getD j (0, 0, 0)).2.1 ∧
      (seq.getD i (0, 0, 0)).2.2 ≤ (seq.getD j (0, 0, 0)).2.2) := by
  subst hms hseq
  set ms := MatchTracks client tracks sched with hdef
  clear_value ms
  have hlen : (progressSeq ms).length = ms.length := progressSeqFrom_length _ _
  refine ⟨hlen, ?_, ?_, ?_, ?_, ?_⟩
  · intro i hi
    rw [hlen] at hi
    rw [progressSeq_getD ms i hi]
  · intro i hi
    rw [hlen] at hi
    rw [progressSeq_getD ms i hi]
    have h1 := countNonNone_add_countNone (ms.take (i + 1))
    have h2 : (ms.take (i + 1)).length = i + 1 := by
      rw [List.length_take]
      omega
    show countNonNone (ms.take (i + 1)) + countNone (ms.take (i + 1)) = i + 1
    omega
  · intro hpos
    rw [hlen] at hpos
    rw [progressSeq_getD ms 0 hpos]
    have hz1 : countNonNone (ms.take 0) = 0 := rfl
    have hz2 : countNone (ms.take 0) = 0 := rfl
    constructor
    · show countNonNone (ms.take (0 + 1)) = _
      rw [countNonNone_take_succ ms 0 hpos, hz1, Nat.zero_add]
    · show countNone (ms.take (0 + 1)) = _
      rw [countNone_take_succ ms 0 hpos, hz2, Nat.zero_add]
  · intro i hi
    rw [hlen] at hi
    rw [progressSeq_getD ms (i + 1) hi, progressSeq_getD ms i (by omega)]
    have h1 := countNonNone_take_succ ms (i + 1) hi
    have h2 := countNone_take_succ ms (i + 1) hi
    exact ⟨h1, h2⟩
  · intro i j hij hj
    rw [hlen] at hj
    rw [progressSeq_getD ms j hj, progressSeq_getD ms i (by omega)]
    exact ⟨countNonNone_take_mono ms (by omega), countNone_take_mono ms (by omega)⟩

/-- C9 witness: the callback invariants evaluated on a two-track run. -/
theorem progress_callback_monotonic_witness :
    ((progressSeq (MatchTracks clientOk [wTrack, wCover]
        [(wTrack, false), (wCover, true)])).getD 1 (0, 0, 0)).1 = 2 :=
  (progress_callback_monotonic clientOk [wTrack, wCover]
    [(wTrack, false), (wCover, true)] _ _ rfl rfl).2.1 1 (by decide)

/-! ## Conversion aggregate (domain/conversion.go)

Go `time.Now()` becomes an explicit `now : Nat` argument; the generated
uuid of a ConversionJob is an ordinary field; `*time.Time` becomes
`Option Nat`; Go `int` counters become `Int`. -/

inductive ConversionStatus
  | pending
  | fetching
  | matching
  | creating
  | completed
  | failed
deriving DecidableEq, Repr

def ConversionStatus.IsTerminal (s : ConversionStatus) : Bool :=
  s == ConversionStatus.completed || s == ConversionStatus.failed

structure Conversion where
  id : String
  userID : String
  sourcePlatform : Platform
  targetPlatform : Platform
  sourcePlaylistID : String
  sourcePlaylistName : String
  targetPlaylistID : String
  targetPlaylistURL : String
  targetPlaylistName : String
  status : ConversionStatus
  totalTracks : Int
  processedTracks : Int
  matchedTracks : Int
  failedTracks : Int
  errorMessage : String
  createdAt : Nat
  updatedAt : Nat
  completedAt : Option Nat
deriving DecidableEq, Repr

structure ConversionJob where
  jobID : String
  userID : String
  sourcePlatform : Platform
  targetPlatform : Platform
  sourcePlaylistID : String
  selectedTrackIDs : List String
  targetPlaylistName : String
  createdAt : Nat
deriving DecidableEq, Repr

def NewConversion : Option ConversionJob → Nat → Except String Conversion
  | Option.none, _ => Except.error "job cannot be nil"
  | some job, now =>
    if job.jobID = "" then Except.error "job ID cannot be empty"
    else if job.userID = "" then Except.error "user ID cannot be empty"
    else if !job.sourcePlatform.IsValid then Except.error "invalid source platform"
    else if !job.targetPlatform.IsValid then Except.error "invalid target platform"
    else if job.sourcePlaylistID = "" then Except.error "source playlist ID cannot be empty"
    else Except.ok
      { id := job.jobID
        userID := job.userID
        sourcePlatform := job.sourcePlatform
        targetPlatform := job.targetPlatform
        sourcePlaylistID := job.sourcePlaylistID
        sourcePlaylistName := ""
        targetPlaylistID := ""
        targetPlaylistURL := ""
        targetPlaylistName := job.targetPlaylistName
        status := ConversionStatus.pending
        totalTracks := 0
        processedTracks := 0
        matchedTracks := 0
        failedTracks := 0
        errorMessage := ""
        createdAt := now
        updatedAt := now
        completedAt := Option.none }

def Conversion.StartFetching (c : Conversion) (now : Nat) : Conversion :=
  { c with status := ConversionStatus.fetching, updatedAt := now }

def Conversion.StartMatching (c : Conversion) (totalTracks : Int)
    (sourcePlaylistName : String) (now : Nat) : Conversion :=
  { c with status := ConversionStatus.matching, totalTracks := totalTracks
           sourcePlaylistName := sourcePlaylistName, updatedAt := now }

def Conversion.UpdateProgress (c : Conversion) (processed matched failed : Int)
    (now : Nat) : Conversion :=
  { c with processedTracks := processed, matchedTracks := matched
           failedTracks := failed, updatedAt := now }

def Conversion.StartCreating (c : Conversion) (now : Nat) : Conversion :=
  { c with status := ConversionStatus.creating, updatedAt := now }

def Conversion.Complete (c : Conversion) (targetPlaylistID targetPlaylistURL : String)
    (now : Nat) : Conversion :=
  { c with status := ConversionStatus.completed
           targetPlaylistID := targetPlaylistID
           targetPlaylistURL := targetPlaylistURL
           updatedAt := now, completedAt := some now }

def Conversion.Fail (c : Conversion) (errorMessage : String) (now : Nat) : Conversion :=
  { c with status := ConversionStatus.failed, errorMessage := errorMessage
           updatedAt := now, completedAt := some now }

/-- wrap64 reduces an unbounded integer to Go's two's-complement int64
value: the literals are 2^63 and 2^64. -/
def wrap64 (x : Int) : Int :=
  (x + 9223372036854775808) % 18446744073709551616 - 9223372036854775808

/-- Progress mirrors Conversion.Progress.  Go `int` is 64-bit
two's-complement, so the product `ProcessedTracks * 100` wraps on
overflow, and Go `/` truncates toward zero (Int.tdiv); the quotient is
wrapped as well, which matters only at MinInt64 / -1 — a case Go also
wraps rather than trapping. -/
def Conversion.Progress (c : Conversion) : Int :=
  if c.totalTracks = 0 then 0
  else wrap64 (Int.tdiv (wrap64 (c.processedTracks * 100)) c.totalTracks)

def wJob : ConversionJob :=
  { jobID := "job-1", userID := "user-1", sourcePlatform := PlatformSpotify
    targetPlatform := PlatformYouTube, sourcePlaylistID := "pl-1"
    selectedTrackIDs := [], targetPlaylistName := "My Playlist", createdAt := 0 }

def wConv : Conversion :=
  { id := "job-1", userID := "user-1", sourcePlatform := PlatformSpotify
    targetPlatform := PlatformYouTube, sourcePlaylistID := "pl-1"
    sourcePlaylistName := "", targetPlaylistID := "", targetPlaylistURL := ""
    targetPlaylistName := "My Playlist", status := ConversionStatus.pending
    totalTracks := 0, processedTracks := 0, matchedTracks := 0, failedTracks := 0
    errorMessage := "", createdAt := 0, updatedAt := 0, completedAt := Option.none }

/-- C7 counterexample: Complete and Fail are unguarded, so a Fail call on
an already COMPLETED (terminal) conversion performs a further transition
and overwrites completed_at, contrary to the claim. -/
theorem terminal_immutability_cex :
    (wConv.Complete "pid" "url" 5).status = ConversionStatus.completed ∧
      (wConv.Complete "pid" "url" 5).status.IsTerminal = true ∧
      (wConv.Complete "pid" "url" 5).completedAt = some 5 ∧
      ((wConv.Complete "pid" "url" 5).Fail "boom" 9).status = ConversionStatus.failed ∧
      ((wConv.Complete "pid" "url" 5).Fail "boom" 9).completedAt = some 9 := by
  refine ⟨rfl, rfl, rfl, rfl, rfl⟩

/-- C7 amended: completed_at is nil at construction, is preserved by every
non-terminal mutator, and is set to the transition time by Complete and
Fail (the two mutators that enter a terminal status, which is also the
only way status becomes terminal); hence completed_at is first set exactly
when status first enters COMPLETED or FAILED.  The aggregate itself has no
terminality guard: a further Complete/Fail call would transition again and
overwrite completed_at (see the counterexample), so immutability holds
only as long as no further terminal call is made. -/
theorem completedAt_terminal_transitions (c : Conversion) (job : Option ConversionJob)
    (t0 now : Nat) (pid purl msg name : String) (total p m f : Int) :
    (∀ c0, NewConversion job t0 = Except.ok c0 → c0.completedAt = Option.none) ∧
      (c.StartFetching now).completedAt = c.completedAt ∧
      (c.StartMatching total name now).completedAt = c.completedAt ∧
      (c.UpdateProgress p m f now).completedAt = c.completedAt ∧
      (c.StartCreating now).completedAt = c.completedAt ∧
      (c.StartFetching now).status.IsTerminal = false ∧
      (c.StartMatching total name now).status.IsTerminal = false ∧
      (c.UpdateProgress p m f now).status = c.status ∧
      (c.StartCreating now).status.IsTerminal = false ∧
      ((c.Complete pid purl now).completedAt = some now ∧
        (c.Complete pid purl now).status.IsTerminal = true) ∧
      ((c.Fail msg now).completedAt = some now ∧
        (c.Fail msg now).status.IsTerminal = true) := by
  refine ⟨?_, rfl, rfl, rfl, rfl, rfl, rfl, rfl, rfl, ⟨rfl, rfl⟩, ⟨rfl, rfl⟩⟩
  intro c0 h
  unfold NewConversion at h
  match job with
  | Option.none => exact absurd h (by simp)
  | some j =>
    simp only at h
    split at h
    · exact absurd h (by simp)
    · split at h
      · exact absurd h (by simp)
      · split at h
        · exact absurd h (by simp)
        · split at h
          · exact absurd h (by simp)
          · split at h
            · exact absurd h (by simp)
            · cases h
              rfl

/-- C7 witness: the amended statement evaluated at a fresh conversion and
concrete mutator arguments. -/
theorem completedAt_terminal_transitions_witness :
    wConv.completedAt = Option.none :=
  (completedAt_terminal_transitions wConv (some wJob) 0 1 "pid" "purl" "msg" "nm"
    3 1 1 0).1 wConv rfl

def wConvOver : Conversion :=
  { wConv with totalTracks := 1, processedTracks := 2 }

def wConvHalf : Conversion :=
  { wConv with totalTracks := 2, processedTracks := 1 }

def wConvBig : Conversion :=
  { wConv with totalTracks := 150000000000000000
               processedTracks := 150000000000000000 }

lemma wrap64_eq_self {x : Int} (h1 : -9223372036854775808 ≤ x)
    (h2 : x < 9223372036854775808) : wrap64 x = x := by
  unfold wrap64
  rw [Int.emod_eq_of_lt (by omega) (by omega)]
  omega

/-- C8 counterexample: Progress applies no cap at 100: with total = 1 and
processed = 2 (values UpdateProgress accepts unchecked) it returns 200. -/
theorem progress_no_cap_cex :
    wConvOver.Progress = 200 ∧ ¬(wConvOver.Progress ≤ 100) := by
  refine ⟨by decide, by decide⟩

/-- C8 amended: progress_percent equals 0 when total is 0 and otherwise
(processed * 100) / total with Go's wrapping int64 multiplication and
truncating integer division, with no capping anywhere; the bounds
0 ≤ progress_percent ≤ 100 hold for every snapshot satisfying
0 ≤ processed ≤ total whose product processed * 100 stays below 2^63 (no
int64 overflow).  When the product overflows the bounds fail even with
0 ≤ processed ≤ total: at processed = total = 150000000000000000 the
wrapped product is negative and Progress returns -22. -/
theorem progress_formula (c : Conversion) :
    (c.totalTracks = 0 → c.Progress = 0) ∧
      (c.totalTracks ≠ 0 →
        c.Progress =
          wrap64 (Int.tdiv (wrap64 (c.processedTracks * 100)) c.totalTracks)) ∧
      (0 ≤ c.processedTracks → c.processedTracks ≤ c.totalTracks →
        c.processedTracks * 100 < 9223372036854775808 →
        0 ≤ c.Progress ∧ c.Progress ≤ 100) ∧
      (0 ≤ wConvBig.processedTracks ∧
        wConvBig.processedTracks ≤ wConvBig.totalTracks ∧
        wConvBig.Progress = -22) := by
  refine ⟨?_, ?_, ?_, by decide, by decide, by decide⟩
  · intro h
    simp [Conversion.Progress, h]
  · intro h
    simp [Conversion.Progress, h]
  · intro h0 h1 hov
    by_cases ht : c.totalTracks = 0
    · have : c.Progress = 0 := by simp [Conversion.Progress, ht]
      simp [this]
    · have hpos : 0 < c.totalTracks := by
        rcases lt_or_gt_of_ne ht with hlt | hgt
        · exact absurd (h0.trans h1) (by omega)
        · exact hgt
      have hnum : 0 ≤ c.processedTracks * 100 := by positivity
      have hw1 : wrap64 (c.processedTracks * 100) = c.processedTracks * 100 :=
        wrap64_eq_self (by omega) hov
      have heq : Int.tdiv (c.processedTracks * 100) c.totalTracks =
          c.processedTracks * 100 / c.totalTracks :=
        Int.tdiv_eq_ediv hnum (le_of_lt hpos)
      have hqnn : 0 ≤ c.processedTracks * 100 / c.totalTracks :=
        Int.ediv_nonneg hnum (le_of_lt hpos)
      have hle : c.processedTracks * 100 ≤ c.totalTracks * 100 :=
        mul_le_mul_of_nonneg_right h1 (by norm_num)
      have h2 : c.processedTracks * 100 / c.totalTracks ≤
          c.totalTracks * 100 / c.totalTracks :=
        Int.ediv_le_ediv hpos hle
      have h3 : c.totalTracks * 100 / c.totalTracks = 100 :=
        Int.mul_ediv_cancel_left 100 ht
      have hq100 : c.processedTracks * 100 / c.totalTracks ≤ 100 := by omega
      have hform : c.Progress = c.processedTracks * 100 / c.totalTracks := by
        rw [Conversion.Progress, if_neg ht, hw1, heq]
        exact wrap64_eq_self (by omega) (by omega)
      rw [hform]
      exact ⟨hqnn, hq100⟩

/-- C8 witness: the formula and bounds evaluated at total = 2,
processed = 1 (no overflow). -/
theorem progress_formula_witness :
    0 ≤ wConvHalf.Progress ∧ wConvHalf.Progress ≤ 100 :=
  (progress_formula wConvHalf).2.2.1 (by decide) (by decide) (by decide)

/-- C10: UpdateProgress sets exactly the three counters and updated_at,
with no validation whatsoever (any integers, including processed >
total_tracks or matched + failed ≠ processed, are accepted since the
equations hold for all p, m, f), and leaves every other field unchanged. -/
theorem updateProgress_frame (c : Conversion) (p m f : Int) (now : Nat) :
    (c.UpdateProgress p m f now).processedTracks = p ∧
      (c.UpdateProgress p m f now).matchedTracks = m ∧
      (c.UpdateProgress p m f now).failedTracks = f ∧
      (c.UpdateProgress p m f now).updatedAt = now ∧
      (c.UpdateProgress p m f now).id = c.id ∧
      (c.UpdateProgress p m f now).userID = c.userID ∧
      (c.UpdateProgress p m f now).sourcePlatform = c.sourcePlatform ∧
      (c.UpdateProgress p m f now).targetPlatform = c.targetPlatform ∧
      (c.UpdateProgress p m f now).sourcePlaylistID = c.sourcePlaylistID ∧
      (c.UpdateProgress p m f now).sourcePlaylistName = c.sourcePlaylistName ∧
      (c.UpdateProgress p m f now).targetPlaylistID = c.targetPlaylistID ∧
      (c.UpdateProgress p m f now).targetPlaylistURL = c.targetPlaylistURL ∧
      (c.UpdateProgress p m f now).targetPlaylistName = c.targetPlaylistName ∧
      (c.UpdateProgress p m f now).status = c.status ∧
      (c.UpdateProgress p m f now).totalTracks = c.totalTracks ∧
      (c.UpdateProgress p m f now).errorMessage = c.errorMessage ∧
      (c.UpdateProgress p m f now).createdAt = c.createdAt ∧
      (c.UpdateProgress p m f now).completedAt = c.completedAt := by
  refine ⟨rfl, rfl, rfl, rfl, rfl, rfl, rfl, rfl, rfl, rfl, rfl, rfl, rfl, rfl,
    rfl, rfl, rfl, rfl⟩

/-! ## Audit log records (domain/log.go)

The generated uuid is modelled as the empty string and `time.Now()` as an
explicit `now` argument; neither is inspected by any claim. -/

inductive ConversionStep
  | fetchSourcePlaylist
  | matchTrackStep
  | createTargetPlaylist
  | addTrackToPlaylist
deriving DecidableEq, Repr

inductive LogStatus
  | success
  | failed
  | skipped
deriving DecidableEq, Repr

structure ConversionLog where
  id : String
  conversionID : String
  step : ConversionStep
  status : LogStatus
  sourceTrackID : String
  sourceTrackName : String
  sourceTrackArtist : String
  targetTrackID : String
  targetTrackName : String
  errorMessage : String
  createdAt : Nat
deriving DecidableEq, Repr

def newConversionLog (conversionID : String) (step : ConversionStep)
    (status : LogStatus) (now : Nat) : ConversionLog :=
  { id := "", conversionID := conversionID, step := step, status := status
    sourceTrackID := "", sourceTrackName := "", sourceTrackArtist := ""
    targetTrackID := "", targetTrackName := "", errorMessage := ""
    createdAt := now }

def NewFetchPlaylistLog (conversionID : String) (status : LogStatus)
    (errorMessage : String) (now : Nat) : ConversionLog :=
  { newConversionLog conversionID ConversionStep.fetchSourcePlaylist status now
      with errorMessage := errorMessage }

def NewMatchTrackLog (conversionID : String) (sourceTrack targetTrack : Option Track)
    (status : LogStatus) (now : Nat) : ConversionLog :=
  let base := newConversionLog conversionID ConversionStep.matchTrackStep status now
  let base := match sourceTrack with
    | Option.none => base
    | some st =>
      { base with
          sourceTrackID := st.platformID
          sourceTrackName := st.name
          sourceTrackArtist := st.artist }
  match targetTrack with
  | Option.none => base
  | some tt => { base with targetTrackID := tt.platformID, targetTrackName := tt.name }

def NewMatchTrackErrorLog (conversionID : String) (sourceTrack : Option Track)
    (errorMessage : String) (now : Nat) : ConversionLog :=
  { NewMatchTrackLog conversionID sourceTrack Option.none LogStatus.failed now
      with errorMessage := errorMessage }

def NewCreatePlaylistLog (conversionID : String) (status : LogStatus)
    (errorMessage : String) (now : Nat) : ConversionLog :=
  { newConversionLog conversionID ConversionStep.createTargetPlaylist status now
      with errorMessage := errorMessage }

/-! ## Playlist (domain/playlist.go, the fields the Converter reads) -/

structure Playlist where
  id : String
  name : String
  description : String
  platform : Platform
  platformID : String
  trackCount : Int
  tracks : List Track
deriving DecidableEq, Repr

/-! ## Status projection (redis NewStatusFromConversion) -/

structure ConversionStatusData where
  jobID : String
  status : ConversionStatus
  progress : Int
  totalTracks : Int
  processedTracks : Int
  matchedTracks : Int
  failedTracks : Int
  targetPlaylistURL : String
  error : String
  updatedAt : Nat
deriving DecidableEq, Repr

def NewStatusFromConversion (c : Conversion) : ConversionStatusData :=
  { jobID := c.id, status := c.status, progress := c.Progress
    totalTracks := c.totalTracks, processedTracks := c.processedTracks
    matchedTracks := c.matchedTracks, failedTracks := c.failedTracks
    targetPlaylistURL := if c.targetPlaylistURL ≠ "" then c.targetPlaylistURL else ""
    error := if c.errorMessage ≠ "" then c.errorMessage else ""
    updatedAt := c.updatedAt }

/-! ## Converter (application/converter.go)

The repositories, status store and target-catalog calls are observable
effects; Convert is embedded as a pure function from an environment of
collaborator responses to the final aggregate, the trace of emitted
effects, and the returned error.  The panic guard (a Go `recover`) has no
counterpart in the pure embedding and is not modelled. -/

inductive ConvEvent
  | statusSet (s : ConversionStatusData)
  | repoCreate (c : Conversion)
  | repoUpdate (c : Conversion)
  | logCreate (l : ConversionLog)
  | logCreateBatch (ls : List ConversionLog)
  | createPlaylistCall (name description : String)
  | addVideosCall (playlistID : String) (videoIDs : List String)
deriving DecidableEq, Repr

/-- touchesCreateStep is true for the events that perform or record the
CREATE_TARGET_PLAYLIST step. -/
def ConvEvent.touchesCreateStep : ConvEvent → Bool
  | ConvEvent.createPlaylistCall _ _ => true
  | ConvEvent.logCreate l => decide (l.step = ConversionStep.createTargetPlaylist)
  | ConvEvent.logCreateBatch ls =>
      ls.any fun l => decide (l.step = ConversionStep.createTargetPlaylist)
  | _ => false

structure ConvertEnv where
  repoCreateResult : Except String Unit
  fetchResult : Except String Playlist
  matcher : List Track → List TrackMatch
  createResult : Except String (String × String)
  addResult : Except String Unit

structure ConvertResult where
  conversion : Option Conversion
  events : List ConvEvent
  error : Option String

def updateStatusEvents (c : Conversion) : List ConvEvent :=
  [ConvEvent.statusSet (NewStatusFromConversion c)]

def saveStateEvents (c : Conversion) : List ConvEvent :=
  updateStatusEvents c ++ [ConvEvent.repoUpdate c]

/-- handleError mirrors converter.handleError: it returns the failed
aggregate, the persistence events, and the error message Convert returns. -/
def handleError (c : Conversion) (now : Nat) (message : String)
    (err : Option String) : Conversion × List ConvEvent × String :=
  let fullMessage := match err with
    | Option.none => message
    | some e => message ++ ": " ++ e
  let c2 := c.Fail fullMessage now
  (c2, saveStateEvents c2, fullMessage)

def filterTracks (tracks : List Track) (selectedIDs : List String) : List Track :=
  tracks.filter fun t => selectedIDs.contains t.platformID

/-- applyProgress replays the Converter's on-progress callback (update the
counters, publish a status snapshot) for each callback triple. -/
def applyProgress (c : Conversion) (now : Nat) :
    List (Nat × Nat × Nat) → Conversion × List ConvEvent
  | [] => (c, [])
  | t :: rest =>
    let c2 := c.UpdateProgress (t.1 : Int) (t.2.1 : Int) (t.2.2 : Int) now
    let res := applyProgress c2 (now + 1) rest
    (res.1, updateStatusEvents c2 ++ res.2)

/-- buildMatchLogs is the Converter's match loop: one SUCCESS log plus a
collected target platform id per non-NONE Match, one FAILED log per NONE
Match.  The Go code dereferences match.TargetTrack, which the matcher
guarantees non-nil for non-NONE Matches; the embedding reads it with
default "". -/
def buildMatchLogs (conversionID : String) (now : Nat) :
    List TrackMatch → List ConversionLog × List String
  | [] => ([], [])
  | mt :: rest =>
    let res := buildMatchLogs conversionID now rest
    if mt.confidence ≠ MatchConfidence.none then
      (NewMatchTrackLog conversionID mt.sourceTrack mt.targetTrack
          LogStatus.success now :: res.1,
        ((mt.targetTrack.map Track.platformID).getD "") :: res.2)
    else
      (NewMatchTrackErrorLog conversionID mt.sourceTrack mt.error now :: res.1,
        res.2)

/-! Convert's let-bound intermediates are hoisted into named definitions
(a standard A-normalisation of the Go function body) so that each stage
can be reasoned about separately.  `convertFromMatches` is the code from
the "no tracks matched" check onward; `convertAfterFetch` is the code from
the track filtering onward; `Convert` is the full flow. -/

def convertFromMatches (env : ConvertEnv) (job : ConversionJob) (playlist : Playlist)
    (conv3 : Conversion) (evs4 : List ConvEvent) (videoIDs : List String)
    (t0 : Nat) : ConvertResult :=
  if videoIDs.length = 0 then
    let res := handleError conv3 (t0 + 6) "no tracks matched" Option.none
    { conversion := some res.1, events := evs4 ++ res.2.1, error := some res.2.2 }
  else
    let conv4 := conv3.StartCreating (t0 + 6)
    let evs5 := evs4 ++ updateStatusEvents conv4
    let description := "Converted from Spotify playlist: " ++ playlist.name
    let evs6 := evs5 ++ [ConvEvent.createPlaylistCall job.targetPlaylistName description]
    match env.createResult with
    | Except.error e =>
      let evs7 := evs6 ++ [ConvEvent.logCreate
        (NewCreatePlaylistLog conv4.id LogStatus.failed e (t0 + 7))]
      let res := handleError conv4 (t0 + 8) "failed to create playlist" (some e)
      { conversion := some res.1, events := evs7 ++ res.2.1, error := some res.2.2 }
    | Except.ok pair =>
      let evs7 := evs6 ++ [ConvEvent.logCreate
        (NewCreatePlaylistLog conv4.id LogStatus.success "" (t0 + 7))]
      let evs8 := evs7 ++ [ConvEvent.addVideosCall pair.1 videoIDs]
      match env.addResult with
      | Except.error e =>
        let res := handleError conv4 (t0 + 8)
          "failed to add videos to playlist" (some e)
        { conversion := some res.1, events := evs8 ++ res.2.1, error := some res.2.2 }
      | Except.ok _ =>
        let conv5 := conv4.Complete pair.1 pair.2 (t0 + 8)
        { conversion := some conv5, events := evs8 ++ saveStateEvents conv5
          error := Option.none }

/-- selectedTracks is the track filtering step of Convert. -/
def selectedTracks (job : ConversionJob) (playlist : Playlist) : List Track :=
  if job.selectedTrackIDs.length > 0 then
    filterTracks playlist.tracks job.selectedTrackIDs
  else playlist.tracks

/-- matchingConv is the aggregate after StartMatching. -/
def matchingConv (job : ConversionJob) (playlist : Playlist) (conv1 : Conversion)
    (t0 : Nat) : Conversion :=
  conv1.StartMatching ((selectedTracks job playlist).length : Int) playlist.name (t0 + 3)

/-- progressOf replays the matcher's progress callbacks over the aggregate. -/
def progressOf (env : ConvertEnv) (job : ConversionJob) (playlist : Playlist)
    (conv1 : Conversion) (t0 : Nat) : Conversion × List ConvEvent :=
  applyProgress (matchingConv job playlist conv1 t0) (t0 + 4)
    (progressSeq (env.matcher (selectedTracks job playlist)))

/-- matchBatch is the audit-batch/collected-ids pair of the match loop. -/
def matchBatch (env : ConvertEnv) (job : ConversionJob) (playlist : Playlist)
    (conv1 : Conversion) (t0 : Nat) : List ConversionLog × List String :=
  buildMatchLogs (progressOf env job playlist conv1 t0).1.id (t0 + 5)
    (env.matcher (selectedTracks job playlist))

def convertAfterFetch (env : ConvertEnv) (job : ConversionJob) (playlist : Playlist)
    (conv1 : Conversion) (evs2 : List ConvEvent) (t0 : Nat) : ConvertResult :=
  convertFromMatches env job playlist (progressOf env job playlist conv1 t0).1
    (evs2 ++ updateStatusEvents (matchingConv job playlist conv1 t0) ++
      (progressOf env job playlist conv1 t0).2 ++
      [ConvEvent.logCreateBatch (matchBatch env job playlist conv1 t0).1])
    (matchBatch env job playlist conv1 t0).2 t0

def Convert (env : ConvertEnv) (job : ConversionJob) (t0 : Nat) : ConvertResult :=
  match NewConversion (some job) t0 with
  | Except.error e =>
    { conversion := Option.none, events := []
      error := some ("failed to create conversion: " ++ e) }
  | Except.ok conv0 =>
    match env.repoCreateResult with
    | Except.error e =>
      { conversion := some conv0, events := []
        error := some ("failed to persist conversion: " ++ e) }
    | Except.ok _ =>
      let conv1 := conv0.StartFetching (t0 + 1)
      let evs1 := [ConvEvent.repoCreate conv0] ++ updateStatusEvents conv1
      match env.fetchResult with
      | Except.error e =>
        let res := handleError conv1 (t0 + 2) "failed to fetch playlist" (some e)
        { conversion := some res.1, events := evs1 ++ res.2.1, error := some res.2.2 }
      | Except.ok playlist =>
        convertAfterFetch env job playlist conv1
          (evs1 ++ [ConvEvent.logCreate
            (NewFetchPlaylistLog conv1.id LogStatus.success "" (t0 + 2))]) t0

/-! ## Converter lemmas -/

lemma NewMatchTrackLog_step (cid : String) (s t : Option Track) (st : LogStatus)
    (now : Nat) : (NewMatchTrackLog cid s t st now).step = ConversionStep.matchTrackStep := by
  unfold NewMatchTrackLog newConversionLog
  cases s <;> cases t <;> rfl

lemma NewMatchTrackErrorLog_step (cid : String) (s : Option Track) (e : String)
    (now : Nat) :
    (NewMatchTrackErrorLog cid s e now).step = ConversionStep.matchTrackStep := by
  unfold NewMatchTrackErrorLog
  exact NewMatchTrackLog_step cid s Option.none LogStatus.failed now

lemma buildMatchLogs_no_create (cid : String) (now : Nat) (ms : List TrackMatch) :
    ((buildMatchLogs cid now ms).1.any fun l =>
      decide (l.step = ConversionStep.createTargetPlaylist)) = false := by
  induction ms with
  | nil => rfl
  | cons mt rest ih =>
    unfold buildMatchLogs
    split <;>
      simp [List.any_cons, ih, NewMatchTrackLog_step, NewMatchTrackErrorLog_step]

lemma buildMatchLogs_ids_nil (cid : String) (now : Nat) (ms : List TrackMatch)
    (h : ∀ m ∈ ms, m.confidence = MatchConfidence.none) :
    (buildMatchLogs cid now ms).2 = [] := by
  induction ms with
  | nil => rfl
  | cons mt rest ih =>
    have hmt : mt.confidence = MatchConfidence.none := h mt (by simp)
    unfold buildMatchLogs
    rw [if_neg (by simp [hmt])]
    exact ih fun m hm => h m (by simp [hm])

lemma applyProgress_touches (ts : List (Nat × Nat × Nat)) :
    ∀ (c : Conversion) (now : Nat), ∀ ev ∈ (applyProgress c now ts).2,
      ev.touchesCreateStep = false := by
  induction ts with
  | nil =>
    intro c now ev hev
    simp [applyProgress] at hev
  | cons t rest ih =>
    intro c now ev hev
    simp only [applyProgress] at hev
    rcases List.mem_append.mp hev with h | h
    · simp only [updateStatusEvents, List.mem_singleton] at h
      subst h
      rfl
    · exact ih _ _ ev h

lemma convertFromMatches_empty (env : ConvertEnv) (job : ConversionJob)
    (pl : Playlist) (conv3 : Conversion) (evs4 : List ConvEvent) (t0 : Nat) :
    (convertFromMatches env job pl conv3 evs4 [] t0).error =
      some "no tracks matched" ∧
    (convertFromMatches env job pl conv3 evs4 [] t0).conversion =
      some (conv3.Fail "no tracks matched" (t0 + 6)) ∧
    (convertFromMatches env job pl conv3 evs4 [] t0).events =
      evs4 ++ saveStateEvents (conv3.Fail "no tracks matched" (t0 + 6)) :=
  ⟨rfl, rfl, rfl⟩

lemma Convert_fetch_ok (env : ConvertEnv) (job : ConversionJob) (t0 : Nat)
    (pl : Playlist) (c0 : Conversion)
    (hok : NewConversion (some job) t0 = Except.ok c0)
    (hrepo : env.repoCreateResult = Except.ok ())
    (hfetch : env.fetchResult = Except.ok pl) :
    Convert env job t0 = convertAfterFetch env job pl (c0.StartFetching (t0 + 1))
      ([ConvEvent.repoCreate c0] ++
        updateStatusEvents (c0.StartFetching (t0 + 1)) ++
        [ConvEvent.logCreate (NewFetchPlaylistLog (c0.StartFetching (t0 + 1)).id
          LogStatus.success "" (t0 + 2))]) t0 := by
  unfold Convert
  rw [hok, hrepo, hfetch]

/-- C6: handle_error builds full = msg when err is nil and msg ++ ": " ++ err
otherwise, transitions the Conversion to FAILED via Fail(full), persists the
state and status snapshot, and hands full back to Convert as the returned
error; and when no Match carries a target platform id, Convert fails with
"no tracks matched" and no CREATE_TARGET_PLAYLIST step (neither the
catalog call nor its audit row) is performed. -/
theorem convert_error_funnel :
    (∀ (c : Conversion) (now : Nat) (msg : String),
      (handleError c now msg Option.none).2.2 = msg ∧
      ∀ e, (handleError c now msg (some e)).2.2 = msg ++ ": " ++ e) ∧
    (∀ (c : Conversion) (now : Nat) (msg : String) (err : Option String),
      (handleError c now msg err).1 =
        c.Fail ((handleError c now msg err).2.2) now ∧
      (handleError c now msg err).1.status = ConversionStatus.failed ∧
      (handleError c now msg err).1.errorMessage = (handleError c now msg err).2.2 ∧
      (handleError c now msg err).2.1 =
        [ConvEvent.statusSet (NewStatusFromConversion (handleError c now msg err).1),
         ConvEvent.repoUpdate (handleError c now msg err).1]) ∧
    (∀ (env : ConvertEnv) (job : ConversionJob) (t0 : Nat) (pl : Playlist)
      (c0 : Conversion),
      NewConversion (some job) t0 = Except.ok c0 →
      env.repoCreateResult = Except.ok () →
      env.fetchResult = Except.ok pl →
      (∀ ts, ∀ m ∈ env.matcher ts, m.confidence = MatchConfidence.none) →
      (Convert env job t0).error = some "no tracks matched" ∧
      (∃ cf, (Convert env job t0).conversion = some cf ∧
        cf.status = ConversionStatus.failed ∧
        cf.errorMessage = "no tracks matched") ∧
      ((Convert env job t0).events.all fun ev => !ev.touchesCreateStep) = true) := by
  refine ⟨?_, ?_, ?_⟩
  · intro c now msg
    exact ⟨rfl, fun e => rfl⟩
  · intro c now msg err
    exact ⟨rfl, rfl, rfl, rfl⟩
  · intro env job t0 pl c0 hok hrepo hfetch hmatch
    rw [Convert_fetch_ok env job t0 pl c0 hok hrepo hfetch]
    have hids : (matchBatch env job pl (c0.StartFetching (t0 + 1)) t0).2 = [] := by
      unfold matchBatch
      exact buildMatchLogs_ids_nil _ _ _ (hmatch _)
    unfold convertAfterFetch
    rw [hids]
    refine ⟨(convertFromMatches_empty _ _ _ _ _ _).1,
      ⟨_, (convertFromMatches_empty _ _ _ _ _ _).2.1, rfl, rfl⟩, ?_⟩
    rw [(convertFromMatches_empty _ _ _ _ _ _).2.2, List.all_eq_true]
    intro ev hev
    have hgoal : ev.touchesCreateStep = false → (!ev.touchesCreateStep) = true := by
      intro h
      rw [h]
      rfl
    apply hgoal
    rcases List.mem_append.mp hev with hA | hSave
    · rcases List.mem_append.mp hA with hB | hBatch
      · rcases List.mem_append.mp hB with hC | hProg
        · rcases List.mem_append.mp hC with hD | hSu
          · rcases List.mem_append.mp hD with hE | hLc
            · rcases List.mem_append.mp hE with hR | hSu1
              · simp only [List.mem_singleton] at hR
                subst hR
                rfl
              · simp only [updateStatusEvents, List.mem_singleton] at hSu1
                subst hSu1
                rfl
            · simp only [List.mem_singleton] at hLc
              subst hLc
              simp [ConvEvent.touchesCreateStep, NewFetchPlaylistLog, newConversionLog]
          · simp only [updateStatusEvents, List.mem_singleton] at hSu
            subst hSu
            rfl
        · unfold progressOf at hProg
          exact applyProgress_touches _ _ _ ev hProg
      · simp only [List.mem_singleton] at hBatch
        subst hBatch
        have hb : ((matchBatch env job pl (c0.StartFetching (t0 + 1)) t0).1.any
            fun l => decide (l.step = ConversionStep.createTargetPlaylist)) = false := by
          unfold matchBatch
          exact buildMatchLogs_no_create _ _ _
        simp [ConvEvent.touchesCreateStep, hb]
    · simp only [saveStateEvents, updateStatusEvents, List.mem_append,
        List.mem_singleton] at hSave
      rcases hSave with h | h <;> (subst h; rfl)

/-! Sample converter environment for the C6 witness. -/

def wPlaylist : Playlist :=
  { id := "p1", name := "Road Trip", description := "", platform := PlatformSpotify
    platformID := "pl-1", trackCount := 1, tracks := [wTrack] }

def envNoMatches : ConvertEnv :=
  { repoCreateResult := Except.ok ()
    fetchResult := Except.ok wPlaylist
    matcher := fun ts => ts.map fun t => NewFailedMatch t "no match found"
    createResult := Except.error "create must not be called"
    addResult := Except.ok () }

/-- C6 witness: a run whose matcher fails every track ends with the
"no tracks matched" error. -/
theorem convert_error_funnel_witness :
    (Convert envNoMatches wJob 0).error = some "no tracks matched" :=
  (convert_error_funnel.2.2 envNoMatches wJob 0 wPlaylist _ rfl rfl rfl
    (by intro ts m hm
        simp only [envNoMatches] at hm
        obtain ⟨t, -, rfl⟩ := List.mem_map.mp hm
        rfl)).1

end ConversionWorker
